import Mathlib

/-!
Shallow embedding of the review-mutation pipeline of the movie-review
backend: `internal/service/review_service.go` (ReviewService.Create /
Update / Delete and emitEvent), `internal/service/review_worker.go`
(handleReviewEvent), the review repository semantics
(`internal/repository/review.go`) over an explicit store state, and the
relevant model types (`internal/models`).

Go `int` is modelled by `Int` (no arithmetic overflow occurs on the
embedded paths).  Store-assigned timestamps (`created_at`/`updated_at`,
set by SQL `NOW()`) are outside the model; the `time.Time` field of a
`ReviewEvent` is modelled as an abstract `Nat` clock value supplied by
the caller.  Database I/O is assumed to succeed except for row lookups,
which return `Option` (`none` = `sql.ErrNoRows`).  Whether the
movie-aggregate updater (`MovieLookup.UpdateAverageRating`) returns an
error is an input flag `aggErr`; lines the code writes through the
standard logger are collected in an explicit log trace.
-/

/-- `models.Review` (id, movie_id, user_id, rating, title, content);
the joined `User`/`Movie` pointers and the store-assigned timestamps are
not part of the model. -/
structure Review where
  id : Int
  movieID : Int
  userID : Int
  rating : Int
  title : String
  content : String
deriving Repr, DecidableEq

/-- `models.CreateReviewRequest`. -/
structure CreateReviewRequest where
  rating : Int
  title : String
  content : String
deriving Repr, DecidableEq

/-- `models.UpdateReviewRequest`. -/
structure UpdateReviewRequest where
  rating : Int
  title : String
  content : String
deriving Repr, DecidableEq

/-- `models.AuditLog` as constructed by the worker (`id`/`created_at`
are store-assigned and left out). -/
structure AuditLog where
  userID : Option Int
  movieID : Option Int
  reviewID : Option Int
  event : String
  details : String
deriving Repr, DecidableEq

/-- `service.ReviewEventType` (`review_created` / `review_updated` /
`review_deleted`). -/
inductive ReviewEventType where
  | created
  | updated
  | deleted
deriving Repr, DecidableEq

/-- The string constant each `ReviewEventType` value stands for. -/
def ReviewEventType.toStr : ReviewEventType → String
  | .created => "review_created"
  | .updated => "review_updated"
  | .deleted => "review_deleted"

/-- `service.ReviewEvent`. -/
structure ReviewEvent where
  type : ReviewEventType
  movieID : Int
  userID : Int
  reviewID : Int
  time : Nat
deriving Repr, DecidableEq

/-- The go-playground validator run by `ReviewService.Create`
(`s.validator.Struct(req)`) against the tags of
`models.CreateReviewRequest`: `Rating` `required,min=1,max=10`,
`Title` `required,max=255`, `Content` `required`. -/
def validCreateReviewRequest (req : CreateReviewRequest) : Bool :=
  (1 ≤ req.rating && req.rating ≤ 10) &&
  (req.title ≠ "" && req.title.length ≤ 255) &&
  req.content ≠ ""

/-- The relational state the repositories act on: the `movies` table
(only row existence matters to the embedded paths) and the `reviews`
table, with the serial id the store assigns next. -/
structure Store where
  movies : List Int
  reviews : List Review
  nextID : Int
deriving Repr, DecidableEq

/-- `ReviewRepository.GetByID`: `SELECT ... FROM reviews WHERE id = $1`;
`none` is `sql.ErrNoRows`. -/
def Store.getByID (s : Store) (id : Int) : Option Review :=
  s.reviews.find? (fun r => r.id == id)

/-- `ReviewRepository.GetByMovieAndUser`:
`SELECT ... FROM reviews WHERE movie_id = $1 AND user_id = $2`. -/
def Store.getByMovieAndUser (s : Store) (movieID userID : Int) : Option Review :=
  s.reviews.find? (fun r => r.movieID == movieID && r.userID == userID)

/-- `MovieRepository.GetByID` restricted to what `ReviewService.Create`
uses: whether the row exists (`false` = `sql.ErrNoRows`). -/
def Store.movieExists (s : Store) (id : Int) : Bool :=
  s.movies.contains id

/-- `ReviewRepository.Create`: `INSERT INTO reviews ... RETURNING id`;
the store assigns the identifier and hands back the inserted row. -/
def Store.repoCreate (s : Store) (r : Review) : Store × Review :=
  let r' := { r with id := s.nextID }
  ({ s with reviews := s.reviews ++ [r'], nextID := s.nextID + 1 }, r')

/-- `ReviewRepository.Update`:
`UPDATE reviews SET rating = $1, title = $2, content = $3 WHERE id = $4`. -/
def Store.repoUpdate (s : Store) (r : Review) : Store :=
  { s with reviews := s.reviews.map (fun x =>
      if x.id == r.id then
        { x with rating := r.rating, title := r.title, content := r.content }
      else x) }

/-- `ReviewRepository.Delete`: `DELETE FROM reviews WHERE id = $1`. -/
def Store.repoDelete (s : Store) (id : Int) : Store :=
  { s with reviews := s.reviews.filter (fun x => !(x.id == id)) }

/-- The buffered Go channel `chan ReviewEvent` of the review service:
a fixed capacity and the events currently queued (FIFO). -/
structure EventChan where
  capacity : Nat
  buf : List ReviewEvent
deriving Repr, DecidableEq

/-- `ReviewService.emitEvent`: no-op on a nil channel, otherwise a
non-blocking `select { case s.events <- e: default: }` — the event is
appended when the buffer has spare capacity and silently dropped when
the channel is full. -/
def emitEvent (ch : Option EventChan) (e : ReviewEvent) : Option EventChan :=
  match ch with
  | none => none
  | some c =>
    if c.buf.length < c.capacity then some { c with buf := c.buf ++ [e] }
    else some c

/-- The domain errors of the service layer: a validator error from
`s.validator.Struct`, `ErrMovieNotFound`, `ErrReviewExists`,
`ErrReviewNotFound`, and `ErrInvalidCredentials` (the "Forbidden"
error). -/
inductive SvcError where
  | validationError
  | movieNotFound
  | reviewExists
  | reviewNotFound
  | invalidCredentials
deriving Repr, DecidableEq

/-- The state a `ReviewService` call reads and writes: the relational
store, the event channel (`none` = nil channel), and the lines the
service writes through the standard logger (none on these paths: the
aggregate-update error is discarded by `_ =`, and a dropped event is
not reported). -/
structure ServiceState where
  store : Store
  events : Option EventChan
  log : List String
deriving Repr, DecidableEq

namespace ReviewService

/-- `ReviewService.Create(ctx, movieID, userID, req)`.  `aggErr` is
whether `s.movies.UpdateAverageRating` returns an error (its result is
discarded by the code); `now` is the `time.Now()` reading stamped into
the emitted event. -/
def create (st : ServiceState) (_aggErr : Bool) (movieID userID : Int)
    (req : CreateReviewRequest) (now : Nat) :
    ServiceState × Except SvcError Review :=
  if !validCreateReviewRequest req then
    (st, .error .validationError)
  else if !st.store.movieExists movieID then
    (st, .error .movieNotFound)
  else
    match st.store.getByMovieAndUser movieID userID with
    | some _ => (st, .error .reviewExists)
    | none =>
      let (store', review) := st.store.repoCreate
        { id := 0, movieID := movieID, userID := userID,
          rating := req.rating, title := req.title, content := req.content }
      let events' := emitEvent st.events
        { type := .created, movieID := movieID, userID := userID,
          reviewID := review.id, time := now }
      ({ store := store', events := events', log := st.log }, .ok review)

/-- `ReviewService.Update(ctx, id, userID, req)`: fetch by id
(`ErrReviewNotFound` on no row), require the requester to be the
author (`ErrInvalidCredentials` otherwise), overwrite only the non-zero
request fields, persist, trigger the aggregate update (error
discarded), emit an `updated` event. -/
def update (st : ServiceState) (_aggErr : Bool) (id userID : Int)
    (req : UpdateReviewRequest) (now : Nat) :
    ServiceState × Except SvcError Review :=
  match st.store.getByID id with
  | none => (st, .error .reviewNotFound)
  | some review =>
    if !(review.userID == userID) then
      (st, .error .invalidCredentials)
    else
      let review := if !(req.rating == 0) then { review with rating := req.rating } else review
      let review := if !(req.title == "") then { review with title := req.title } else review
      let review := if !(req.content == "") then { review with content := req.content } else review
      let store' := st.store.repoUpdate review
      let events' := emitEvent st.events
        { type := .updated, movieID := review.movieID, userID := review.userID,
          reviewID := review.id, time := now }
      ({ store := store', events := events', log := st.log }, .ok review)

/-- `ReviewService.Delete(ctx, id, requester, isAdmin)`: fetch by id
(`ErrReviewNotFound` on no row), allow the author or an admin
(`ErrInvalidCredentials` otherwise), delete the row, trigger the
aggregate update (error discarded), emit a `deleted` event.  `none` in
the second component is the nil error. -/
def delete (st : ServiceState) (_aggErr : Bool) (id requester : Int)
    (isAdmin : Bool) (now : Nat) :
    ServiceState × Option SvcError :=
  match st.store.getByID id with
  | none => (st, some .reviewNotFound)
  | some review =>
    if !isAdmin && !(review.userID == requester) then
      (st, some .invalidCredentials)
    else
      let store' := st.store.repoDelete id
      let events' := emitEvent st.events
        { type := .deleted, movieID := review.movieID, userID := review.userID,
          reviewID := review.id, time := now }
      ({ store := store', events := events', log := st.log }, none)

end ReviewService

/-- A call the worker makes on its collaborators: the movie aggregate
updater or the audit-log writer. -/
inductive WorkerCall where
  | updateAverageRating (movieID : Int)
  | auditInsert (entry : AuditLog)
deriving Repr, DecidableEq

/-- `service.handleReviewEvent(ctx, e, movies, audit)`: if the event
carries a non-zero movie id, call `movies.UpdateAverageRating` (logging
the error, if any, and continuing); if `audit` is nil return; otherwise
build the `models.AuditLog` with a nil pointer for every zero-valued
reference and call `audit.Insert` (logging the error, if any).
`auditNil` is whether the audit writer is nil; `aggErr` / `auditErr`
are whether the respective collaborator call returns an error.  The
result is the sequence of collaborator calls made and the log lines
written. -/
def handleReviewEvent (e : ReviewEvent) (auditNil aggErr auditErr : Bool) :
    List WorkerCall × List String :=
  let calls₁ : List WorkerCall :=
    if !(e.movieID == 0) then [.updateAverageRating e.movieID] else []
  let log₁ : List String :=
    if !(e.movieID == 0) && aggErr then
      ["review worker: update average rating error"]
    else []
  if auditNil then (calls₁, log₁)
  else
    let entry : AuditLog :=
      { userID := if !(e.userID == 0) then some e.userID else none,
        movieID := if !(e.movieID == 0) then some e.movieID else none,
        reviewID := if !(e.reviewID == 0) then some e.reviewID else none,
        event := e.type.toStr,
        details := "" }
    (calls₁ ++ [.auditInsert entry],
     log₁ ++ (if auditErr then ["review worker: audit insert error"] else []))

/-! Concrete fixture states used by the closed instances below. -/

/-- A valid creation request. -/
def reqA : CreateReviewRequest := { rating := 9, title := "Great", content := "Loved it" }

/-- A second valid creation request by the same author. -/
def reqB : CreateReviewRequest := { rating := 5, title := "Meh", content := "Changed my mind" }

/-- A partial update request carrying only an (out-of-range) rating. -/
def upReq99 : UpdateReviewRequest := { rating := 99, title := "", content := "" }

/-- An all-zero (invalid) creation request. -/
def reqZero : CreateReviewRequest := { rating := 0, title := "", content := "" }

/-- The review `reqA` produces for movie 1 / author 2 with assigned id 1. -/
def revA : Review :=
  { id := 1, movieID := 1, userID := 2, rating := 9, title := "Great", content := "Loved it" }

/-- An empty event channel of capacity 4. -/
def chan4 : EventChan := { capacity := 4, buf := [] }

/-- A state with movie 1 and no reviews. -/
def st0 : ServiceState :=
  { store := { movies := [1], reviews := [], nextID := 1 }, events := some chan4, log := [] }

/-- A state with movie 1 and the single review `revA`. -/
def st1 : ServiceState :=
  { store := { movies := [1], reviews := [revA], nextID := 2 }, events := some chan4, log := [] }

/-- The event `ReviewService.create` emits from `st0` for `reqA` at time 0. -/
def evA : ReviewEvent := { type := .created, movieID := 1, userID := 2, reviewID := 1, time := 0 }

/-- A concrete worker event. -/
def evC : ReviewEvent := { type := .created, movieID := 1, userID := 2, reviewID := 3, time := 0 }

/-- A full event channel (capacity 0). -/
def chanFull : EventChan := { capacity := 0, buf := [] }

/-- The state `ReviewService.create` produces from `st0` for `reqA` at
time 0: review `revA` stored and event `evA` enqueued. -/
def stA : ServiceState :=
  { store := { movies := [1], reviews := [revA], nextID := 2 },
    events := some { capacity := 4, buf := [evA] }, log := [] }

/-! Helper lemmas about the store primitives, shared by the claim
theorems below. -/

/-- `find?` commutes with a `map` whose function preserves the
predicate. -/
theorem find?_map_of_pred_invariant (g : Review → Review) (p : Review → Bool)
    (hg : ∀ x, p (g x) = p x) (l : List Review) :
    (l.map g).find? p = (l.find? p).map g := by
  induction l with
  | nil => rfl
  | cons x xs ih =>
    cases hpx : p x with
    | true =>
      rw [List.map_cons, List.find?_cons_of_pos _ (by rw [hg]; exact hpx),
        List.find?_cons_of_pos _ hpx]
      rfl
    | false =>
      rw [List.map_cons, List.find?_cons_of_neg _ (by simp [hg, hpx]),
        List.find?_cons_of_neg _ (by simp [hpx]), ih]

/-- A row found by id is still found after `repoUpdate`, with exactly
the three updated columns replaced. -/
theorem getByID_repoUpdate (s : Store) (id : Int) (review r' : Review)
    (hfind : s.getByID id = some review) (hid : r'.id = review.id) :
    (s.repoUpdate r').getByID id
      = some { review with rating := r'.rating, title := r'.title, content := r'.content } := by
  unfold Store.getByID at hfind ⊢
  unfold Store.repoUpdate
  rw [find?_map_of_pred_invariant _ _ (fun x => by
        by_cases h : (x.id == r'.id) = true <;> simp [h]), hfind]
  simp [hid]

/-- After `repoDelete id` no row with that id is found. -/
theorem getByID_repoDelete (s : Store) (id : Int) :
    (s.repoDelete id).getByID id = none := by
  unfold Store.getByID Store.repoDelete
  rw [List.find?_eq_none]
  intro x hx
  rw [List.mem_filter] at hx
  simpa using hx.2

/-- `find?` over an append skips a first part that has no match. -/
theorem find?_append_of_none (p : Review → Bool) (l₁ l₂ : List Review)
    (h : l₁.find? p = none) : (l₁ ++ l₂).find? p = l₂.find? p := by
  induction l₁ with
  | nil => rfl
  | cons x xs ih =>
    cases hpx : p x with
    | true =>
      rw [List.find?_cons_of_pos _ hpx] at h
      exact absurd h (by simp)
    | false =>
      rw [List.find?_cons_of_neg _ (by simp [hpx])] at h
      rw [List.cons_append, List.find?_cons_of_neg _ (by simp [hpx]), ih h]

/-- Claim C5: updating an existing review as a requester other than the
review's author fails with `ErrInvalidCredentials` ("Forbidden") and
returns the state — and hence the review — unchanged.
`ReviewService.update` takes no admin flag, so this holds for
administrators as well: the author is the only principal that can ever
update a review. -/
theorem update_forbidden_for_non_author (st : ServiceState) (a : Bool)
    (id userID : Int) (req : UpdateReviewRequest) (now : Nat) (review : Review)
    (hfind : st.store.getByID id = some review)
    (hne : review.userID ≠ userID) :
    ReviewService.update st a id userID req now = (st, .error .invalidCredentials) := by
  unfold ReviewService.update
  rw [hfind]
  simp [hne]

/-- Closed instance of `update_forbidden_for_non_author`: requester 5 is
not the author (2) of review 1. -/
theorem update_forbidden_for_non_author_witness :
    ReviewService.update st1 true 1 5 upReq99 3 = (st1, .error .invalidCredentials) :=
  update_forbidden_for_non_author st1 true 1 5 upReq99 3 revA (by rfl) (by decide)

/-- Claim C8: when the movie lookup reports no row (`sql.ErrNoRows`),
`ReviewService.create` on a validated request fails with
`ErrMovieNotFound` and returns the state unchanged: no review is
persisted and no event is emitted. -/
theorem create_movie_not_found (st : ServiceState) (a : Bool) (movieID userID : Int)
    (req : CreateReviewRequest) (now : Nat)
    (hreq : validCreateReviewRequest req = true)
    (hmovie : st.store.movieExists movieID = false) :
    ReviewService.create st a movieID userID req now = (st, .error .movieNotFound) := by
  unfold ReviewService.create
  simp [hreq, hmovie]

/-- Closed instance of `create_movie_not_found`: movie 5 does not exist
in `st0`. -/
theorem create_movie_not_found_witness :
    ReviewService.create st0 true 5 2 reqA 0 = (st0, .error .movieNotFound) :=
  create_movie_not_found st0 true 5 2 reqA 0 (by decide) (by decide)

/-- Claim C9: in both `update` and `delete` the existence check comes
before the authorization check: a missing review id yields
`ErrReviewNotFound` for every requester and admin flag, and
`ErrInvalidCredentials` ("Forbidden") is only ever returned when the
review exists. -/
theorem not_found_precedes_forbidden (st : ServiceState) (a b : Bool)
    (id userID requester : Int) (isAdmin : Bool) (req : UpdateReviewRequest) (now m : Nat) :
    (st.store.getByID id = none →
      ReviewService.update st a id userID req now = (st, .error .reviewNotFound)
      ∧ ReviewService.delete st b id requester isAdmin m = (st, some .reviewNotFound))
    ∧ ((ReviewService.update st a id userID req now).2 = .error .invalidCredentials →
        (st.store.getByID id).isSome = true)
    ∧ ((ReviewService.delete st b id requester isAdmin m).2 = some .invalidCredentials →
        (st.store.getByID id).isSome = true) := by
  refine ⟨fun h => ?_, fun h => ?_, fun h => ?_⟩
  · unfold ReviewService.update ReviewService.delete
    rw [h]
    exact ⟨rfl, rfl⟩
  · cases hg : st.store.getByID id with
    | some r => rfl
    | none =>
      unfold ReviewService.update at h
      rw [hg] at h
      simp at h
  · cases hg : st.store.getByID id with
    | some r => rfl
    | none =>
      unfold ReviewService.delete at h
      rw [hg] at h
      simp at h

/-- Closed instance of `not_found_precedes_forbidden`: review 9 does not
exist in `st0`, so both operations report `ErrReviewNotFound`. -/
theorem not_found_precedes_forbidden_witness :
    ReviewService.update st0 true 9 2 upReq99 0 = (st0, .error .reviewNotFound)
    ∧ ReviewService.delete st0 false 9 3 false 1 = (st0, some .reviewNotFound) :=
  (not_found_precedes_forbidden st0 true false 9 2 3 false upReq99 0 1).1 (by rfl)

/-- Evaluation of `ReviewService.update` by the review's author: the
returned and persisted review keeps every field of the stored one
except the non-zero / non-empty request fields. -/
theorem update_by_author_eval (st : ServiceState) (a : Bool) (id userID : Int)
    (req : UpdateReviewRequest) (now : Nat) (review : Review)
    (hfind : st.store.getByID id = some review)
    (hown : review.userID = userID) :
    (ReviewService.update st a id userID req now).2
      = .ok { id := review.id, movieID := review.movieID, userID := review.userID,
              rating := if req.rating ≠ 0 then req.rating else review.rating,
              title := if req.title ≠ "" then req.title else review.title,
              content := if req.content ≠ "" then req.content else review.content }
    ∧ (ReviewService.update st a id userID req now).1.store.getByID id
      = some { id := review.id, movieID := review.movieID, userID := review.userID,
               rating := if req.rating ≠ 0 then req.rating else review.rating,
               title := if req.title ≠ "" then req.title else review.title,
               content := if req.content ≠ "" then req.content else review.content } := by
  have hbeq : (review.userID == userID) = true := by simp [hown]
  constructor
  · by_cases h1 : req.rating = 0 <;> by_cases h2 : req.title = "" <;>
      by_cases h3 : req.content = "" <;>
      simp [ReviewService.update, hfind, hbeq, h1, h2, h3]
  · by_cases h1 : req.rating = 0 <;> by_cases h2 : req.title = "" <;>
      by_cases h3 : req.content = "" <;>
      (simp [ReviewService.update, hfind, hbeq, h1, h2, h3];
       exact getByID_repoUpdate st.store id review _ hfind rfl)

/-- Claim C4: for an existing review updated by its author,
`ReviewService.update` returns, and persists under the same id, a
review equal to the stored one except that `Rating` is replaced iff the
request's rating is non-zero, `Title` iff the request's title is
non-empty, and `Content` iff the request's content is non-empty. -/
theorem update_overwrites_only_nonzero_fields (st : ServiceState) (a : Bool)
    (id userID : Int) (req : UpdateReviewRequest) (now : Nat) (review : Review)
    (hfind : st.store.getByID id = some review)
    (hown : review.userID = userID) :
    (ReviewService.update st a id userID req now).2
      = .ok { id := review.id, movieID := review.movieID, userID := review.userID,
              rating := if req.rating ≠ 0 then req.rating else review.rating,
              title := if req.title ≠ "" then req.title else review.title,
              content := if req.content ≠ "" then req.content else review.content }
    ∧ (ReviewService.update st a id userID req now).1.store.getByID id
      = some { id := review.id, movieID := review.movieID, userID := review.userID,
               rating := if req.rating ≠ 0 then req.rating else review.rating,
               title := if req.title ≠ "" then req.title else review.title,
               content := if req.content ≠ "" then req.content else review.content } :=
  update_by_author_eval st a id userID req now review hfind hown

/-- Closed instance of `update_overwrites_only_nonzero_fields`: the
author updates only the rating; title and content stay as stored. -/
theorem update_overwrites_only_nonzero_fields_witness :
    (ReviewService.update st1 true 1 2 upReq99 0).2
      = .ok { id := 1, movieID := 1, userID := 2, rating := 99,
              title := "Great", content := "Loved it" }
    ∧ (ReviewService.update st1 true 1 2 upReq99 0).1.store.getByID 1
      = some { id := 1, movieID := 1, userID := 2, rating := 99,
               title := "Great", content := "Loved it" } :=
  update_overwrites_only_nonzero_fields st1 true 1 2 upReq99 0 revA (by rfl) (by rfl)

/-- Claim C10: `ReviewService.create` runs the request validator first
and rejects an invalid request (rating outside 1-10, empty title or
content) with the state untouched, before any store or movie-lookup
access — the result is the same for every store; `ReviewService.update`
performs no validation: any non-zero rating, including values outside
1-10, is returned and persisted as-is. -/
theorem create_validates_update_does_not :
    (∀ (st : ServiceState) (a : Bool) (movieID userID : Int)
        (req : CreateReviewRequest) (now : Nat),
      validCreateReviewRequest req = false →
      ReviewService.create st a movieID userID req now = (st, .error .validationError))
    ∧ (∀ req : CreateReviewRequest,
      req.rating < 1 ∨ 10 < req.rating ∨ req.title = "" ∨ req.content = "" →
      validCreateReviewRequest req = false)
    ∧ (∀ (st : ServiceState) (a : Bool) (id userID : Int)
        (req : UpdateReviewRequest) (now : Nat) (review : Review),
      st.store.getByID id = some review → review.userID = userID → req.rating ≠ 0 →
      ∃ r', (ReviewService.update st a id userID req now).2 = .ok r'
        ∧ r'.rating = req.rating
        ∧ (ReviewService.update st a id userID req now).1.store.getByID id = some r') := by
  refine ⟨fun st a movieID userID req now h => ?_, fun req h => ?_,
    fun st a id userID req now review hfind hown hr => ?_⟩
  · unfold ReviewService.create
    simp [h]
  · unfold validCreateReviewRequest
    rcases h with h | h | h | h
    · have : ¬ (1 ≤ req.rating) := by omega
      simp [this]
    · have : ¬ (req.rating ≤ 10) := by omega
      simp [this]
    · simp [h]
    · simp [h]
  · have h4 := update_by_author_eval st a id userID req now review hfind hown
    refine ⟨_, h4.1, ?_, h4.2⟩
    simp [hr]

/-- Closed instance of `create_validates_update_does_not`: the all-zero
request is rejected with the state unchanged, while an update carrying
the out-of-range rating 99 is persisted as-is. -/
theorem create_validates_update_does_not_witness :
    ReviewService.create st0 true 1 2 reqZero 0 = (st0, .error .validationError)
    ∧ ∃ r', (ReviewService.update st1 true 1 2 upReq99 0).2 = .ok r'
        ∧ r'.rating = upReq99.rating
        ∧ (ReviewService.update st1 true 1 2 upReq99 0).1.store.getByID 1 = some r' :=
  ⟨create_validates_update_does_not.1 st0 true 1 2 reqZero 0 (by decide),
   create_validates_update_does_not.2.2 st1 true 1 2 upReq99 0 revA (by rfl) (by rfl)
     (by decide)⟩

/-- Claim C6: deleting an existing review fails with
`ErrInvalidCredentials` ("Forbidden"), state unchanged, exactly when the
requester is neither the review's author nor an admin; when the
requester is the author or `isAdmin` is true, the deletion succeeds
(nil error) and the review is no longer retrievable by id. -/
theorem delete_forbidden_iff (st : ServiceState) (a : Bool) (id requester : Int)
    (isAdmin : Bool) (now : Nat) (review : Review)
    (hfind : st.store.getByID id = some review) :
    (ReviewService.delete st a id requester isAdmin now = (st, some .invalidCredentials)
      ↔ isAdmin = false ∧ review.userID ≠ requester)
    ∧ (isAdmin = true ∨ review.userID = requester →
      (ReviewService.delete st a id requester isAdmin now).2 = none
      ∧ (ReviewService.delete st a id requester isAdmin now).1.store.getByID id = none) := by
  have hred : ReviewService.delete st a id requester isAdmin now
      = if !isAdmin && !(review.userID == requester) then
          (st, some .invalidCredentials)
        else
          ({ store := st.store.repoDelete id,
             events := emitEvent st.events
               { type := .deleted, movieID := review.movieID, userID := review.userID,
                 reviewID := review.id, time := now },
             log := st.log }, none) := by
    unfold ReviewService.delete
    rw [hfind]
  rw [hred]
  cases isAdmin <;> by_cases hu : review.userID = requester <;>
    simp [hu, getByID_repoDelete]

/-- Closed instance of `delete_forbidden_iff`: an administrator who is
not the author deletes review 1, which then is no longer retrievable. -/
theorem delete_forbidden_iff_witness :
    (ReviewService.delete st1 true 1 7 true 0).2 = none
    ∧ (ReviewService.delete st1 true 1 7 true 0).1.store.getByID 1 = none :=
  (delete_forbidden_iff st1 true 1 7 true 0 revA (by rfl)).2 (Or.inl rfl)

/-- Inversion of a successful `ReviewService.create`: the request
validated, the movie existed, the (movie, author) pair had no review,
and the result state appends the freshly numbered review, emits a
`created` event and writes nothing to the log. -/
theorem create_ok_elim (st st' : ServiceState) (a : Bool) (movieID userID : Int)
    (req : CreateReviewRequest) (n : Nat) (r : Review)
    (h : ReviewService.create st a movieID userID req n = (st', .ok r)) :
    validCreateReviewRequest req = true
    ∧ st.store.movieExists movieID = true
    ∧ st.store.getByMovieAndUser movieID userID = none
    ∧ st'.store.movies = st.store.movies
    ∧ st'.store.reviews = st.store.reviews ++ [r]
    ∧ r = { id := st.store.nextID, movieID := movieID, userID := userID,
            rating := req.rating, title := req.title, content := req.content }
    ∧ st'.events = emitEvent st.events
        { type := .created, movieID := movieID, userID := userID,
          reviewID := st.store.nextID, time := n }
    ∧ st'.log = st.log := by
  cases hv : validCreateReviewRequest req with
  | false =>
    unfold ReviewService.create at h
    simp [hv] at h
  | true =>
    cases hm : st.store.movieExists movieID with
    | false =>
      unfold ReviewService.create at h
      simp [hv, hm] at h
    | true =>
      cases hg : st.store.getByMovieAndUser movieID userID with
      | some x =>
        unfold ReviewService.create at h
        simp [hv, hm, hg] at h
      | none =>
        unfold ReviewService.create at h
        simp [hv, hm, hg, Store.repoCreate] at h
        obtain ⟨h1, h2⟩ := h
        subst h1
        subst h2
        exact ⟨rfl, rfl, rfl, rfl, rfl, rfl, rfl, rfl⟩

/-- Inversion of a successful `ReviewService.update`: the result state
emits an `updated` event built from the returned review and writes
nothing to the log. -/
theorem update_ok_events (st st' : ServiceState) (a : Bool) (id userID : Int)
    (req : UpdateReviewRequest) (n : Nat) (r : Review)
    (h : ReviewService.update st a id userID req n = (st', .ok r)) :
    st'.events = emitEvent st.events
      { type := .updated, movieID := r.movieID, userID := r.userID,
        reviewID := r.id, time := n }
    ∧ st'.log = st.log := by
  cases hgO : st.store.getByID id with
  | none =>
    unfold ReviewService.update at h
    rw [hgO] at h
    simp at h
  | some review =>
    unfold ReviewService.update at h
    rw [hgO] at h
    by_cases hu : (review.userID == userID) = true
    · simp only [hu, Bool.not_true, Bool.false_eq_true, if_false, Prod.mk.injEq] at h
      obtain ⟨h1, h2⟩ := h
      subst h1
      cases h2 with
      | refl => exact ⟨rfl, rfl⟩
    · simp [hu] at h

/-- Inversion of a successful `ReviewService.delete`: the review
existed, the row is removed, a `deleted` event built from the fetched
review is emitted, and nothing is logged. -/
theorem delete_ok_elim (st st' : ServiceState) (a : Bool) (id requester : Int)
    (isAdmin : Bool) (n : Nat)
    (h : ReviewService.delete st a id requester isAdmin n = (st', none)) :
    ∃ review, st.store.getByID id = some review
    ∧ st'.store = st.store.repoDelete id
    ∧ st'.events = emitEvent st.events
        { type := .deleted, movieID := review.movieID, userID := review.userID,
          reviewID := review.id, time := n }
    ∧ st'.log = st.log := by
  cases hgO : st.store.getByID id with
  | none =>
    unfold ReviewService.delete at h
    rw [hgO] at h
    simp at h
  | some review =>
    have hred : ReviewService.delete st a id requester isAdmin n
        = if !isAdmin && !(review.userID == requester) then
            (st, some .invalidCredentials)
          else
            ({ store := st.store.repoDelete id,
               events := emitEvent st.events
                 { type := .deleted, movieID := review.movieID, userID := review.userID,
                   reviewID := review.id, time := n },
               log := st.log }, none) := by
      unfold ReviewService.delete
      rw [hgO]
    rw [hred] at h
    by_cases hguard : (!isAdmin && !(review.userID == requester)) = true
    · rw [if_pos hguard] at h
      injection h with h1 h2
      simp at h2
    · rw [if_neg hguard] at h
      injection h with h1 h2
      subst h1
      exact ⟨review, rfl, rfl, rfl, rfl⟩

/-- A validated create for a (movie, author) pair that already has a
review fails with `ErrReviewExists` and returns the state unchanged. -/
theorem create_on_existing_pair (st : ServiceState) (a : Bool) (movieID userID : Int)
    (req : CreateReviewRequest) (n : Nat)
    (hreq : validCreateReviewRequest req = true)
    (hm : st.store.movieExists movieID = true)
    (hg : (st.store.getByMovieAndUser movieID userID).isSome = true) :
    ReviewService.create st a movieID userID req n = (st, .error .reviewExists) := by
  unfold ReviewService.create
  cases hgg : st.store.getByMovieAndUser movieID userID with
  | none =>
    rw [hgg] at hg
    simp at hg
  | some x => simp [hreq, hm, hgg]

/-- Claim C1: after a successful `ReviewService.create` for
(movieID, userID), exactly one review for that pair exists in the
store, and a second validated create for the same pair fails with
`ErrReviewExists`, returning the post-create state unchanged (the first
review is untouched). -/
theorem create_unique_per_pair (st st' : ServiceState) (a a₂ : Bool)
    (movieID userID : Int) (req req₂ : CreateReviewRequest) (n n₂ : Nat) (r : Review)
    (h : ReviewService.create st a movieID userID req n = (st', .ok r))
    (h₂ : validCreateReviewRequest req₂ = true) :
    st'.store.reviews.countP (fun x => x.movieID == movieID && x.userID == userID) = 1
    ∧ ReviewService.create st' a₂ movieID userID req₂ n₂ = (st', .error .reviewExists) := by
  obtain ⟨hv, hm, hg, hmov, hrev, hr, hev, hlog⟩ :=
    create_ok_elim st st' a movieID userID req n r h
  have hpr : (fun x : Review => x.movieID == movieID && x.userID == userID) r = true := by
    rw [hr]
    simp
  have hgnone : st.store.reviews.find?
      (fun x => x.movieID == movieID && x.userID == userID) = none := by
    unfold Store.getByMovieAndUser at hg
    exact hg
  constructor
  · rw [hrev, List.countP_append]
    have h0 : st.store.reviews.countP
        (fun x => x.movieID == movieID && x.userID == userID) = 0 :=
      List.countP_eq_zero.mpr (fun x hx => List.find?_eq_none.mp hgnone x hx)
    rw [h0]
    simp [hpr]
  · apply create_on_existing_pair st' a₂ movieID userID req₂ n₂ h₂
    · unfold Store.movieExists at hm ⊢
      rw [hmov]
      exact hm
    · unfold Store.getByMovieAndUser
      rw [hrev, find?_append_of_none _ _ _ hgnone]
      simp [List.find?_cons, hpr]

/-- Closed instance of `create_unique_per_pair`: author 2 creates a
review for movie 1 from `st0`, then tries again with `reqB`. -/
theorem create_unique_per_pair_witness :
    stA.store.reviews.countP (fun x => x.movieID == 1 && x.userID == 2) = 1
    ∧ ReviewService.create stA false 1 2 reqB 7 = (stA, .error .reviewExists) :=
  create_unique_per_pair st0 stA true false 1 2 reqA reqB 0 7 revA (by rfl) (by decide)

/-- Claim C7: when the event channel is wired (non-nil) and has spare
capacity, every successful `create`, `update` or `delete` enqueues
exactly one event, whose kind matches the operation and whose movie,
user and review references match the mutated row. -/
theorem event_enqueued_on_success (st : ServiceState) (c : EventChan) (a : Bool) (now : Nat)
    (hch : st.events = some c) (hcap : c.buf.length < c.capacity) :
    (∀ (movieID userID : Int) (req : CreateReviewRequest) (st' : ServiceState) (r : Review),
      ReviewService.create st a movieID userID req now = (st', .ok r) →
      st'.events = some { c with buf := c.buf ++
        [{ type := .created, movieID := movieID, userID := userID,
           reviewID := r.id, time := now }] })
    ∧ (∀ (id userID : Int) (req : UpdateReviewRequest) (st' : ServiceState) (r : Review),
      ReviewService.update st a id userID req now = (st', .ok r) →
      st'.events = some { c with buf := c.buf ++
        [{ type := .updated, movieID := r.movieID, userID := r.userID,
           reviewID := r.id, time := now }] })
    ∧ (∀ (id requester : Int) (isAdmin : Bool) (st' : ServiceState) (review : Review),
      st.store.getByID id = some review →
      ReviewService.delete st a id requester isAdmin now = (st', none) →
      st'.events = some { c with buf := c.buf ++
        [{ type := .deleted, movieID := review.movieID, userID := review.userID,
           reviewID := review.id, time := now }] }) := by
  refine ⟨fun movieID userID req st' r h => ?_, fun id userID req st' r h => ?_,
    fun id requester isAdmin st' review hfind h => ?_⟩
  · obtain ⟨_, _, _, _, _, hr, hev, _⟩ := create_ok_elim st st' a movieID userID req now r h
    have hid : r.id = st.store.nextID := by
      rw [hr]
    rw [hev, hch, hid]
    simp [emitEvent, hcap]
  · obtain ⟨hev, _⟩ := update_ok_events st st' a id userID req now r h
    rw [hev, hch]
    simp [emitEvent, hcap]
  · obtain ⟨review', hfind', hst, hev, _⟩ :=
      delete_ok_elim st st' a id requester isAdmin now h
    rw [hfind] at hfind'
    injection hfind' with hfind'
    subst hfind'
    rw [hev, hch]
    simp [emitEvent, hcap]

/-- Closed instance of `event_enqueued_on_success`: the create from
`st0` enqueues exactly the `created` event `evA` on the capacity-4
channel. -/
theorem event_enqueued_on_success_witness :
    stA.events = some { capacity := 4, buf := [evA] } :=
  (event_enqueued_on_success st0 chan4 true 0 rfl (by decide)).1 1 2 reqA stA revA (by rfl)

/-- Claim C3: for an event with a non-zero movie reference handled with
a wired (non-nil) audit writer, the worker calls the aggregate updater
for that movie exactly once and the audit writer exactly once — for
every combination of collaborator errors, so each call is attempted
even when the other fails — and the constructed audit entry carries
`none` for every zero-valued reference and an event string equal to the
event's kind. -/
theorem worker_handles_event_once (e : ReviewEvent) (aggErr auditErr : Bool)
    (hm : e.movieID ≠ 0) :
    (handleReviewEvent e false aggErr auditErr).1
      = [.updateAverageRating e.movieID,
         .auditInsert
           { userID := if e.userID = 0 then none else some e.userID,
             movieID := some e.movieID,
             reviewID := if e.reviewID = 0 then none else some e.reviewID,
             event := e.type.toStr,
             details := "" }] := by
  unfold handleReviewEvent
  by_cases hu : e.userID = 0 <;> by_cases hr : e.reviewID = 0 <;>
    simp [hm, hu, hr]

/-- Closed instance of `worker_handles_event_once` at the concrete
event `evC`, with both collaborator calls failing. -/
theorem worker_handles_event_once_witness :
    (handleReviewEvent evC false true true).1
      = [.updateAverageRating 1,
         .auditInsert { userID := some 2, movieID := some 1, reviewID := some 3,
                        event := "review_created", details := "" }] :=
  worker_handles_event_once evC true true (by decide)

/-- Claim C2 (amended): a failure of the secondary effects is never
propagated — the entire outcome of `create`/`update`/`delete` (returned
value and resulting state) is independent of whether the aggregate-rating
update fails, the service writes nothing to its log on these paths (the
aggregate-update error is silently discarded by `_ =`, not logged; the
asynchronous consumer logs its own side-effect failures separately), a
send to a full event channel silently drops the event, and a nil event
channel makes emission a no-op. -/
theorem secondary_failures_never_propagate (st : ServiceState) (a₁ a₂ : Bool) :
    (∀ (movieID userID : Int) (req : CreateReviewRequest) (now : Nat),
      ReviewService.create st a₁ movieID userID req now
        = ReviewService.create st a₂ movieID userID req now)
    ∧ (∀ (id userID : Int) (req : UpdateReviewRequest) (now : Nat),
      ReviewService.update st a₁ id userID req now
        = ReviewService.update st a₂ id userID req now)
    ∧ (∀ (id requester : Int) (isAdmin : Bool) (now : Nat),
      ReviewService.delete st a₁ id requester isAdmin now
        = ReviewService.delete st a₂ id requester isAdmin now)
    ∧ (∀ (movieID userID : Int) (req : CreateReviewRequest) (now : Nat),
      (ReviewService.create st a₁ movieID userID req now).1.log = st.log)
    ∧ (∀ (id userID : Int) (req : UpdateReviewRequest) (now : Nat),
      (ReviewService.update st a₁ id userID req now).1.log = st.log)
    ∧ (∀ (id requester : Int) (isAdmin : Bool) (now : Nat),
      (ReviewService.delete st a₁ id requester isAdmin now).1.log = st.log)
    ∧ (∀ e, emitEvent none e = none)
    ∧ (∀ (c : EventChan) (e : ReviewEvent), c.capacity ≤ c.buf.length →
      emitEvent (some c) e = some c) := by
  refine ⟨fun _ _ _ _ => rfl, fun _ _ _ _ => rfl, fun _ _ _ _ => rfl,
    ?_, ?_, ?_, fun _ => rfl, ?_⟩
  · intro movieID userID req now
    unfold ReviewService.create
    split
    · rfl
    · split
      · rfl
      · split <;> rfl
  · intro id userID req now
    unfold ReviewService.update
    split
    · rfl
    · split <;> rfl
  · intro id requester isAdmin now
    unfold ReviewService.delete
    split
    · rfl
    · split <;> rfl
  · intro c e h
    have hfull : ¬ c.buf.length < c.capacity := by omega
    simp [emitEvent, hfull]

/-- Closed instance of `secondary_failures_never_propagate`: the create
from `st0` has the same outcome whether or not the aggregate update
fails, and a send to the full channel `chanFull` is dropped. -/
theorem secondary_failures_never_propagate_witness :
    ReviewService.create st0 true 1 2 reqA 0 = ReviewService.create st0 false 1 2 reqA 0
    ∧ emitEvent (some chanFull) evA = some chanFull :=
  ⟨(secondary_failures_never_propagate st0 true false).1 1 2 reqA 0,
   (secondary_failures_never_propagate st0 true false).2.2.2.2.2.2.2 chanFull evA
     (by decide)⟩

/-- Claim C2 counterexample for the "the failure is independently
logged" clause: from `st0` (whose log trace is empty) a create during
which the aggregate-rating update fails (`aggErr = true`) still
succeeds, yet the service's log trace is still empty afterwards — the
synchronous secondary-effect failure is discarded by `_ =` in
`ReviewService.Create`, not logged. -/
theorem secondary_failure_not_logged_counterexample :
    (ReviewService.create st0 true 1 2 reqA 0).2 = .ok revA
    ∧ st0.log = [] ∧ (ReviewService.create st0 true 1 2 reqA 0).1.log = [] := by
  refine ⟨rfl, rfl, rfl⟩
